import Mathlib

/-!
Verification of the Amaran lighting-controller integration.

Shallow embedding of the repository's core logic:

* `src/__init__.py` — `AmaranAPI`: token generation (`generate_token`),
  the websocket transport session (`send_request`) with its pacing check,
  request-id handling and fault recovery, modelled as a small cooperative
  (asyncio-style) interpreter.
* `src/amaran_HA/light.py` — `AmaranLight`: the supported-color-mode
  construction (`async_setup_entry` + `__init__`), the command path
  (`async_turn_on`) and the telemetry reconciler (`async_update`).

Python `dict` values are modelled as association lists in insertion order
(CPython dicts preserve insertion order); numbers keep the `int` / `float`
distinction of the source's `isinstance` checks, with floats idealised as
rationals.
-/

namespace Amaran

/-- JSON-ish values as produced by `json.loads` on controller responses.
`jint` models a Python `int`, `jfloat` a Python `float` (idealised as an
exact rational); the distinction matters because `light.py` checks
`isinstance(x, (int, float))` in most places but `isinstance(x, int)`
(ints only) in the RGB reconciler. Objects are association lists in
insertion order. -/
inductive Json where
  | jnull : Json
  | jbool : Bool → Json
  | jint : Int → Json
  | jfloat : Rat → Json
  | jstr : String → Json
  | jarr : List Json → Json
  | jobj : List (String × Json) → Json

/-- `isinstance(v, (int, float))`: the numeric value of a Json leaf, if any. -/
def jnum? : Json → Option Rat
  | .jint i => some (i : Rat)
  | .jfloat q => some q
  | _ => none

/-- `isinstance(v, int)`: the value of a Json leaf that is a Python `int`. -/
def jint? : Json → Option Int
  | .jint i => some i
  | _ => none

/-- `d[k]` / `k in d` on a Python dict modelled as an association list:
the value at the first occurrence of key `k`. -/
def jget (l : List (String × Json)) (k : String) : Option Json :=
  (l.find? (fun p => p.1 == k)).map (·.2)

/-- Python `int(x)` on a number: truncation toward zero, as an integer
division. -/
def tdivZ (a b : Int) : Int :=
  a.sign * b.sign * ((a.natAbs / b.natAbs : Nat) : Int)

/-- Python `int(q)` for a (rational-idealised) number: truncation toward
zero. -/
def pyInt (q : Rat) : Int := tdivZ q.num (q.den : Int)

/-- `int(v * 255 / 1000)` — the internal-to-external brightness scaling —
computed exactly: the rational `v * 255 / 1000` is
`(v.num * 255) / (v.den * 1000)`, truncated toward zero. -/
def scaleTo255 (v : Rat) : Int := tdivZ (v.num * 255) ((v.den : Int) * 1000)

/-- Home Assistant `ColorMode` members used by `light.py`. -/
inductive ColorMode where
  | onoff
  | brightness
  | colorTemp
  | hs
  | rgb
deriving DecidableEq

/-- The `color_modes` set built in `async_setup_entry` / `AmaranLight.__init__`
(`light.py`), as one membership flag per possible member. -/
structure ModeSet where
  onoff : Bool
  brightness : Bool
  ct : Bool
  hs : Bool
  rgb : Bool
deriving DecidableEq

/-- `m in color_modes`. -/
def ModeSet.mem (m : ModeSet) : ColorMode → Bool
  | .onoff => m.onoff
  | .brightness => m.brightness
  | .colorTemp => m.ct
  | .hs => m.hs
  | .rgb => m.rgb

/-- `color_modes.remove(m)` (the source only ever removes members that are
present, so the `KeyError` path never triggers). -/
def ModeSet.remove (m : ModeSet) : ColorMode → ModeSet
  | .onoff => { m with onoff := false }
  | .brightness => { m with brightness := false }
  | .colorTemp => { m with ct := false }
  | .hs => { m with hs := false }
  | .rgb => { m with rgb := false }

/-- `async_setup_entry` (`light.py` lines 64-76): start from
`{ONOFF, BRIGHTNESS}`, add `COLOR_TEMP` when `cct_support`, add both `HS`
and `RGB` when `rgb_support` or `hsi_support`. -/
def setupColorModes (cct_support rgb_support hsi_support : Bool) : ModeSet :=
  let m : ModeSet := ⟨true, true, false, false, false⟩
  let m := if cct_support then { m with ct := true } else m
  if rgb_support || hsi_support then { m with hs := true, rgb := true } else m

/-- `AmaranLight.__init__` (`light.py` lines 107-140): remove `ONOFF`,
remove `BRIGHTNESS` when a primary color mode is present, then walk the
`primary_modes` list removing modes excluded by the priority
`COLOR_TEMP > HS > RGB`. -/
def initColorModes (m0 : ModeSet) : ModeSet :=
  let m := if m0.mem .onoff then m0.remove .onoff else m0
  let m :=
    if (m.mem .colorTemp || m.mem .hs || m.mem .rgb) && m.mem .brightness then
      m.remove .brightness
    else m
  let primary : List ColorMode :=
    (if m.mem .colorTemp then [.colorTemp] else []) ++
    (if m.mem .hs then [.hs] else []) ++
    (if m.mem .rgb then [.rgb] else [])
  if primary.length > 1 then
    primary.foldl
      (fun acc mode =>
        if mode ≠ ColorMode.colorTemp && decide (ColorMode.colorTemp ∈ primary) then
          acc.remove mode
        else if mode ≠ ColorMode.hs && decide (ColorMode.hs ∈ primary) &&
            !decide (ColorMode.colorTemp ∈ primary) then
          acc.remove mode
        else acc)
      m
  else m

/-- The supported color modes a light entity ends up with, as a function of
the three capability flags (`cct_support`, `rgb_support`, `hsi_support`):
composition of `async_setup_entry`'s set construction and `__init__`'s
exclusion logic. -/
def supportedModes (cct_support rgb_support hsi_support : Bool) : ModeSet :=
  initColorModes (setupColorModes cct_support rgb_support hsi_support)

/-- Default `_color_mode` chosen at the end of `__init__`
(`light.py` lines 143-150). -/
def defaultColorMode (m : ModeSet) : ColorMode :=
  if m.ct then .colorTemp
  else if m.hs then .hs
  else if m.rgb then .rgb
  else .brightness

/-- Modelled from the spec (invariant (a) and the design note on
capability-derived modes): the supported mode set keeps at most one of
`{COLOR_TEMP, HS, RGB}`, chosen with priority
`COLOR_TEMP > HS > RGB`; any RGB or HSI capability contributes the `HS`
mode; with no color capability only `BRIGHTNESS` remains. Used as the
reference value the source's set mutation is compared against. -/
def specPriorityModes (cct_support rgb_support hsi_support : Bool) : ModeSet :=
  if cct_support then ⟨false, false, true, false, false⟩
  else if rgb_support || hsi_support then ⟨false, false, false, true, false⟩
  else ⟨false, true, false, false, false⟩

/-- The mutable entity state of `AmaranLight` that `async_turn_on` /
`async_update` read and write. Color values are kept exactly as the source
stores them: Kelvin as a number, hue/saturation as a pair of numbers, RGB
as a triple of Python ints. `_brightness` is initialised to `255` and only
ever assigned ints, so it is modelled as `Int` (the dead `is None` check in
`async_turn_on` is modelled as always false). -/
structure LightState where
  colorModes : ModeSet
  colorMode : ColorMode
  isOn : Bool
  brightness : Int
  colorTemp : Option Rat
  hsColor : Option (Rat × Rat)
  rgbColor : Option (Int × Int × Int)
  cctMin : Int
  cctMax : Int
deriving DecidableEq

/-- A controller response as received by `async_update`: the decoded JSON
object (`{}` — the empty list — is the transport-level empty-response
sentinel). -/
abbrev Response := List (String × Json)

/-- Intensity reconciliation (`light.py` lines 396-423): from the
`get_intensity` response, the pair (`new_brightness`, `new_is_on`), or
`none` when the response is unusable and the previous values are kept.
Mirrors the source: bare number; dict via `.get('intensity', 0)` (note the
numeric default `0`); first-numeric-value scan. -/
def resolveIntensity (resp : Response) : Option (Int × Bool) :=
  if resp.isEmpty then none
  else
    match jget resp "data" with
    | none => none
    | some d =>
      match jnum? d with
      | some v => some (scaleTo255 v, decide (v > 0))
      | none =>
        match d with
        | .jobj m =>
          let iv := (jget m "intensity").getD (.jint 0)
          match jnum? iv with
          | some v => some (scaleTo255 v, decide (v > 0))
          | none =>
            match m.find? (fun p => (jnum? p.2).isSome) with
            | some p =>
              (jnum? p.2).map (fun v => (scaleTo255 v, decide (v > 0)))
            | none => none
        | _ => none

/-- Color-temperature reconciliation (`light.py` lines 444-465): bare
number; dict with a numeric `cct` key; otherwise first-numeric-value
scan. -/
def resolveCct (resp : Response) : Option Rat :=
  if resp.isEmpty then none
  else
    match jget resp "data" with
    | none => none
    | some d =>
      match jnum? d with
      | some v => some v
      | none =>
        match d with
        | .jobj m =>
          match (jget m "cct").bind jnum? with
          | some v => some v
          | none => (m.find? (fun p => (jnum? p.2).isSome)).bind (fun p => jnum? p.2)
        | _ => none

/-- The fallback scan of the HSI reconciler (`light.py` lines 487-495):
walk the dict, latching numeric values under keys whose lowercase form is
`hue` / `sat` (`elif`: the `sat` branch only runs when the `hue` branch did
not), stopping once both are found. -/
def scanHueSat : List (String × Json) → Option Rat → Option Rat → Option Rat × Option Rat
  | [], hue, sat => (hue, sat)
  | (k, v) :: rest, hue, sat =>
    let hueHit := k.toLower == "hue" && (jnum? v).isSome
    let hue' := if hueHit then jnum? v else hue
    let sat' :=
      if !hueHit && k.toLower == "sat" && (jnum? v).isSome then jnum? v else sat
    if hue'.isSome && sat'.isSome then (hue', sat')
    else scanHueSat rest hue' sat'

/-- HSI reconciliation (`light.py` lines 477-507): dict with both `hue`
and `sat` keys (values must be numeric, else nothing resolves); dict
without both keys → lowercase-key scan; bare number `v` → `(v, 100)` with
the default saturation `100`. -/
def resolveHsi (resp : Response) : Option (Rat × Rat) :=
  if resp.isEmpty then none
  else
    match jget resp "data" with
    | none => none
    | some d =>
      match d with
      | .jobj m =>
        if (jget m "hue").isSome && (jget m "sat").isSome then
          match (jget m "hue").bind jnum?, (jget m "sat").bind jnum? with
          | some hue, some sat => some (hue, sat)
          | _, _ => none
        else
          match scanHueSat m none none with
          | (some hue, some sat) => some (hue, sat)
          | _ => none
      | _ =>
        match jnum? d with
        | some v => some (v, 100)
        | none => none

/-- The fallback scan of the RGB reconciler (`light.py` lines 528-540):
like `scanHueSat` but for `r` / `g` / `b`, and accepting Python ints only
(`isinstance(value, int)`). -/
def scanRgb : List (String × Json) → Option Int → Option Int → Option Int →
    Option Int × Option Int × Option Int
  | [], r, g, b => (r, g, b)
  | (k, v) :: rest, r, g, b =>
    let rHit := k.toLower == "r" && (jint? v).isSome
    let gHit := !rHit && k.toLower == "g" && (jint? v).isSome
    let bHit := !rHit && !gHit && k.toLower == "b" && (jint? v).isSome
    let r' := if rHit then jint? v else r
    let g' := if gHit then jint? v else g
    let b' := if bHit then jint? v else b
    if r'.isSome && g'.isSome && b'.isSome then (r', g', b')
    else scanRgb rest r' g' b'

/-- RGB reconciliation (`light.py` lines 519-552): dict with `r`, `g`, `b`
keys (each must be a Python int); dict without them → lowercase-key scan;
bare number `v` → grayscale `(int(v), int(v), int(v))`. -/
def resolveRgb (resp : Response) : Option (Int × Int × Int) :=
  if resp.isEmpty then none
  else
    match jget resp "data" with
    | none => none
    | some d =>
      match d with
      | .jobj m =>
        if (jget m "r").isSome && (jget m "g").isSome && (jget m "b").isSome then
          match (jget m "r").bind jint?, (jget m "g").bind jint?, (jget m "b").bind jint? with
          | some r, some g, some b => some (r, g, b)
          | _, _, _ => none
        else
          match scanRgb m none none none with
          | (some r, some g, some b) => some (r, g, b)
          | _ => none
      | _ =>
        match jnum? d with
        | some v => some (pyInt v, pyInt v, pyInt v)
        | none => none

/-- The four telemetry responses one `async_update` poll may consume (each
query is only issued — hence its response only consulted — under the
source's mode conditions). -/
structure PollResponses where
  intensity : Response
  cct : Response
  hsi : Response
  rgb : Response

/-- The final state commit of `async_update` (`light.py` lines 556-579):
keep only the data of the resolved color mode, clearing the other two
stored values; when no mode resolved with a value, retain the previous
color data; update `_color_mode` only when a mode resolved. -/
def commitColor (st1 : LightState) (nm : Option ColorMode) (ctv : Option Rat)
    (hsv : Option (Rat × Rat)) (rgbv : Option (Int × Int × Int)) : LightState :=
  let st2 :=
    if nm == some ColorMode.colorTemp && ctv.isSome then
      { st1 with colorTemp := ctv, hsColor := none, rgbColor := none }
    else if nm == some ColorMode.hs && hsv.isSome then
      { st1 with colorTemp := none, hsColor := hsv, rgbColor := none }
    else if nm == some ColorMode.rgb && rgbv.isSome then
      { st1 with colorTemp := none, hsColor := none, rgbColor := rgbv }
    else st1
  match nm with
  | some mode => { st2 with colorMode := mode }
  | none => st2

/-- `AmaranLight.async_update` (`light.py` lines 383-579): reconcile one
poll. Brightness/power from `get_intensity`; the current color mode is
kept when still supported; otherwise the queries are tried in priority
order `COLOR_TEMP → HS → RGB`, and the final commit clears the two color
values that do not belong to the resolved mode, or retains everything when
nothing resolved. -/
def async_update (st : LightState) (resps : PollResponses) : LightState :=
  let bi := (resolveIntensity resps.intensity).getD (st.brightness, st.isOn)
  let nm0 : Option ColorMode :=
    if st.colorMode == ColorMode.colorTemp && st.colorModes.ct then some .colorTemp
    else if st.colorMode == ColorMode.hs && st.colorModes.hs then some .hs
    else if st.colorMode == ColorMode.rgb && st.colorModes.rgb then some .rgb
    else none
  let ctStage : Option ColorMode × Option Rat :=
    if st.colorModes.ct && (nm0 == none || nm0 == some ColorMode.colorTemp) then
      match resolveCct resps.cct with
      | some v => (some .colorTemp, some v)
      | none => (nm0, none)
    else (nm0, none)
  let nm1 := ctStage.1
  let hsStage : Option ColorMode × Option (Rat × Rat) :=
    if st.colorModes.hs && (nm1 == none || nm1 == some ColorMode.hs) then
      match resolveHsi resps.hsi with
      | some hs => (some .hs, some hs)
      | none => (nm1, none)
    else (nm1, none)
  let nm2 := hsStage.1
  let rgbStage : Option ColorMode × Option (Int × Int × Int) :=
    if st.colorModes.rgb && (nm2 == none || nm2 == some ColorMode.rgb) then
      match resolveRgb resps.rgb with
      | some c => (some .rgb, some c)
      | none => (nm2, none)
    else (nm2, none)
  let nm := rgbStage.1
  let st1 := { st with brightness := bi.1, isOn := bi.2 }
  commitColor st1 nm ctStage.2 hsStage.2 rgbStage.2

/-- A request handed to `AmaranAPI.send_request` by the light entity (the
node id is the entity's own and is omitted; all argument values the entity
sends are ints). -/
structure Request where
  action : String
  args : List (String × Int)
deriving DecidableEq

/-- The keyword arguments `async_turn_on` inspects
(`ATTR_BRIGHTNESS`, `ATTR_COLOR_TEMP_KELVIN`, `ATTR_HS_COLOR`,
`ATTR_RGB_COLOR`); `none` models an absent key. -/
structure TurnOnArgs where
  brightness : Option Int
  color_temp_kelvin : Option Int
  hs_color : Option (Rat × Rat)
  rgb_color : Option (Int × Int × Int)

/-- `if not kwargs:` — no keyword argument was supplied (other service
keys are never passed by the host for this entity). -/
def TurnOnArgs.isEmpty (kw : TurnOnArgs) : Bool :=
  kw.brightness.isNone && kw.color_temp_kelvin.isNone &&
  kw.hs_color.isNone && kw.rgb_color.isNone

/-- `AmaranLight.async_turn_on` (`light.py` lines 257-360): apply the
supplied attributes in priority order `COLOR_TEMP > HS > RGB` (brightness,
when present, first and independently), collecting the requests sent to the controller in
order, and return the optimistically updated local state. -/
def async_turn_on (st : LightState) (kw : TurnOnArgs) : LightState × List Request :=
  let intensity0 : Int :=
    if st.brightness ≠ 0 then tdivZ (st.brightness * 1000) 255 else 1000
  let step1 : LightState × List Request × Int :=
    match kw.brightness with
    | some b =>
      let i := tdivZ (b * 1000) 255
      ({ st with brightness := b }, [⟨"set_intensity", [("intensity", i)]⟩], i)
    | none => (st, [], intensity0)
  let st1 := step1.1
  let reqs1 := step1.2.1
  let intensity := step1.2.2
  let step2 : LightState × List Request × Option ColorMode :=
    match kw.color_temp_kelvin with
    | some k =>
      let kelvin := max st1.cctMin (min st1.cctMax k)
      ({ st1 with colorTemp := some (kelvin : Rat), hsColor := none, rgbColor := none },
       reqs1 ++ [⟨"set_cct", [("cct", kelvin)]⟩], some .colorTemp)
    | none => (st1, reqs1, none)
  let st2 := step2.1
  let reqs2 := step2.2.1
  let nm2 := step2.2.2
  let step3 : LightState × List Request × Option ColorMode :=
    match kw.hs_color, nm2 with
    | some hs, none =>
      ({ st2 with hsColor := some hs, colorTemp := none, rgbColor := none },
       reqs2 ++ [⟨"set_hsi",
         [("hue", pyInt hs.1), ("sat", pyInt hs.2), ("intensity", intensity)]⟩],
       some .hs)
    | _, _ => (st2, reqs2, nm2)
  let st3 := step3.1
  let reqs3 := step3.2.1
  let nm3 := step3.2.2
  let step4 : LightState × List Request × Option ColorMode :=
    match kw.rgb_color, nm3 with
    | some c, none =>
      ({ st3 with rgbColor := some c, colorTemp := none, hsColor := none },
       reqs3 ++ [⟨"set_rgb",
         [("r", c.1), ("g", c.2.1), ("b", c.2.2), ("intensity", intensity)]⟩],
       some .rgb)
    | _, _ => (st3, reqs3, nm3)
  let st4 := step4.1
  let reqs4 := step4.2.1
  let nm4 := step4.2.2
  let step5 : LightState × List Request :=
    if kw.isEmpty then
      if st4.brightness == 0 then
        ({ st4 with brightness := 255 },
         reqs4 ++ [⟨"set_intensity", [("intensity", 1000)]⟩])
      else
        (st4, reqs4 ++ [⟨"set_intensity", [("intensity", intensity)]⟩])
    else (st4, reqs4)
  let st5 := step5.1
  let st6 :=
    match nm4 with
    | some mode => { st5 with colorMode := mode }
    | none => st5
  ({ st6 with isOn := true }, step5.2)

/-! ## Token generator (`AmaranAPI.generate_token`, `src/__init__.py` lines 288-306)

The standard base64 codec is implemented over byte lists; bytes are `Nat`
values `< 256`. `b64decode` models Python's non-strict
`base64.b64decode`: characters outside the alphabet are discarded, and the
remaining data must be correctly `=`-padded to a multiple of four
characters, otherwise the call raises (modelled as `none`). -/

/-- The 6-bit value of a standard-alphabet base64 character. -/
def b64CharVal (c : Char) : Option Nat :=
  if 'A' ≤ c && c ≤ 'Z' then some (c.toNat - 'A'.toNat)
  else if 'a' ≤ c && c ≤ 'z' then some (c.toNat - 'a'.toNat + 26)
  else if '0' ≤ c && c ≤ '9' then some (c.toNat - '0'.toNat + 52)
  else if c == '+' then some 62
  else if c == '/' then some 63
  else none

/-- The standard-alphabet base64 character of a 6-bit value. -/
def b64Char (n : Nat) : Char :=
  ("ABCDEFGHIJKLMNOPQRSTUVWXYZabcdefghijklmnopqrstuvwxyz0123456789+/".data).getD n 'A'

/-- Decode a list of 6-bit values (groups of four; a final group of two or
three values came from a `==` / `=`-padded quad). -/
def b64DecodeVals : List Nat → List Nat
  | v1 :: v2 :: v3 :: v4 :: rest =>
    (v1 * 4 + v2 / 16) :: ((v2 % 16) * 16 + v3 / 4) :: ((v3 % 4) * 64 + v4) ::
      b64DecodeVals rest
  | [v1, v2] => [v1 * 4 + v2 / 16]
  | [v1, v2, v3] => [v1 * 4 + v2 / 16, (v2 % 16) * 16 + v3 / 4]
  | _ => []

/-- `base64.b64decode` on a text secret: discard non-alphabet characters,
check `=` padding, decode. `none` models the raised `binascii.Error`. -/
def b64decode (s : String) : Option (List Nat) :=
  let dataChars := s.data.filter (fun c => (b64CharVal c).isSome)
  let pads := (s.data.filter (fun c => c == '=')).length
  let n := dataChars.length
  if (n % 4 == 0 && pads == 0) || (n % 4 == 2 && pads == 2) ||
      (n % 4 == 3 && pads == 1) then
    some (b64DecodeVals (dataChars.map (fun c => (b64CharVal c).getD 0)))
  else none

/-- Encode a byte list into base64 characters (full 3-byte groups map to
quads; a trailing group of one or two bytes is `=`-padded). -/
def b64EncodeBytes : List Nat → List Char
  | b1 :: b2 :: b3 :: rest =>
    b64Char (b1 / 4) :: b64Char ((b1 % 4) * 16 + b2 / 16) ::
      b64Char ((b2 % 16) * 4 + b3 / 64) :: b64Char (b3 % 64) ::
      b64EncodeBytes rest
  | [b1, b2] => [b64Char (b1 / 4), b64Char ((b1 % 4) * 16 + b2 / 16),
      b64Char ((b2 % 16) * 4), '=']
  | [b1] => [b64Char (b1 / 4), b64Char ((b1 % 4) * 16), '=', '=']
  | [] => []

/-- `base64.b64encode(..).decode()`. -/
def b64encode (bs : List Nat) : String := ⟨b64EncodeBytes bs⟩

/-- The per-call nondeterminism of `generate_token`: the twelve random iv
bytes from `os.urandom(12)` and the wall clock `int(time.time())`. -/
structure TokenEnv where
  iv : List Nat
  now : Nat

/-- The key sizes `cryptography`'s `algorithms.AES` accepts (128, 192 or
256 bits); any other length makes the `Cipher` construction raise
`ValueError`. -/
def validAesKeySize (n : Nat) : Bool :=
  n == 16 || n == 24 || n == 32

/-- The 16-byte GCM authentication tag (`encryptor.tag`). Its bytes are
irrelevant to every property proved here — only its fixed length is used —
so it is modelled as zeros. -/
def aesGcmTag : List Nat := List.replicate 16 0

/-- AES-256-GCM encryption of the plaintext. GCM is a stream mode: the
ciphertext has exactly the plaintext's length, which is the only fact the
theorems rely on, so the byte values are modelled as the plaintext ones
rather than by an AES implementation. -/
def aesGcmEncrypt (_key : List Nat) (_iv : List Nat) (pt : List Nat) : List Nat :=
  pt

/-- `AmaranAPI.generate_token` (`src/__init__.py` lines 288-306): decode
the stored base64 secret, build an AES-GCM cipher (raises unless the key
is 16, 24 or 32 bytes), encrypt the decimal timestamp string, and return
`base64(iv ‖ tag ‖ ciphertext)`; every raised exception is caught and
yields `""`. -/
def generate_token (api_key : String) (env : TokenEnv) : String :=
  match b64decode api_key with
  | none => ""
  | some key =>
    if validAesKeySize key.length then
      let plaintext := (toString env.now).data.map Char.toNat
      let ciphertext := aesGcmEncrypt key env.iv plaintext
      b64encode (env.iv ++ aesGcmTag ++ ciphertext)
    else ""

/-! ## Transport session (`AmaranAPI.send_request`, `src/__init__.py` lines 308-349)

`send_request` is a coroutine; its behaviour under concurrent callers is
modelled by a cooperative (asyncio-style) interpreter. Each caller is a
task; a task runs atomically between its `await` points, which in the
source are exactly: the pacing `asyncio.sleep`, `connect()`, acquiring
`_ws_lock` when it is contended (an uncontended `asyncio.Lock.acquire`
does not suspend), `websocket.send` and `websocket.recv`. The event loop
always resumes the task whose wake-up deadline is earliest (ties go to the
task scheduled first), and `asyncio.Lock` hands itself over to its
first-in-first-out waiter queue on release. Time is in milliseconds
(`Nat`); the 200 ms minimum interval is `self._min_request_interval`. -/

/-- One task's I/O fate for its single `send_request` call: outcome and
duration of `connect()` (if reached), of `generate_token` (successful or
`""`), of `websocket.send` and of `websocket.recv` (`false` = the await
raises, i.e. a transport fault). -/
structure Env where
  connectOk : Bool
  connectDur : Nat
  tokenOk : Bool
  sendOk : Bool
  sendDur : Nat
  recvOk : Bool
  recvDur : Nat

/-- The shared `AmaranAPI` session fields touched by `send_request`, plus
the `_ws_lock` holder and first-in-first-out waiter queue. -/
structure Session where
  websocket : Bool
  request_id : Nat
  last_request_time : Int
  lockHeld : Option Nat
  lockQueue : List Nat
deriving DecidableEq

/-- Where a task stands between await points. `sending` remembers the
send-start instant; `finished true` is a decoded response, `finished
false` the empty-response sentinel `{}`. -/
inductive Phase where
  | start
  | afterSleep
  | connecting
  | waitLock
  | lockGranted
  | sending (sendStart : Nat)
  | receiving
  | finished (gotResponse : Bool)
deriving DecidableEq

/-- One task: its environment, the instant it next becomes runnable, its
phase, and the request id captured into its envelope (line 329 of the
source — read when the envelope dict is built, before the lock is
acquired). -/
structure Task where
  env : Env
  readyAt : Nat
  phase : Phase
  rid : Nat

/-- Observable protocol events: a `connect()` attempt, and a successfully
transmitted envelope with its send-start instant and its `request_id`
field. -/
inductive Event where
  | connectStart (task : Nat) (time : Nat)
  | sent (task : Nat) (sendStart : Nat) (rid : Nat)
deriving DecidableEq

/-- Whole interpreter state: the event-loop clock, the session, the tasks
(task id = list position) and the event log. -/
structure Sched where
  clock : Nat
  session : Session
  tasks : List Task
  events : List Event

/-- `_ws_lock.release()` (the `async with` exit, taken on both the normal
and the exception path): hand the lock to the head of the waiter queue,
waking that task at the current instant. -/
def releaseLock (c : Nat) (s : Session) (tasks : List Task) : Session × List Task :=
  match s.lockQueue with
  | [] => ({ s with lockHeld := none }, tasks)
  | w :: rest =>
    match tasks[w]? with
    | some tw =>
      ({ s with lockHeld := some w, lockQueue := rest },
       tasks.set w { tw with phase := .lockGranted, readyAt := c })
    | none => ({ s with lockHeld := none, lockQueue := rest }, tasks)

/-- Source lines 321-341 run without suspending: generate the token
(return `{}` if empty), build the envelope — capturing the current
`request_id` — and try to take `_ws_lock`, starting the send at once when
the lock is free and queueing otherwise. -/
def proceedToSend (c : Nat) (i : Nat) (s : Session) (tk : Task) :
    Session × Task :=
  if !tk.env.tokenOk then (s, { tk with phase := .finished false })
  else
    let tk := { tk with rid := s.request_id }
    match s.lockHeld with
    | none =>
      ({ s with lockHeld := some i },
       { tk with phase := .sending c, readyAt := c + tk.env.sendDur })
    | some _ =>
      ({ s with lockQueue := s.lockQueue ++ [i] }, { tk with phase := .waitLock })

/-- Source lines 315-319, after any pacing sleep: record the new
`_last_request_time`, then reconnect lazily — `connect()` suspends —
when the socket is absent. Returns the extra events produced. -/
def afterPacing (c : Nat) (i : Nat) (s : Session) (tk : Task) :
    Session × Task × List Event :=
  let s := { s with last_request_time := (c : Int) }
  if s.websocket then
    let (s, tk) := proceedToSend c i s tk
    (s, tk, [])
  else
    (s, { tk with phase := .connecting, readyAt := c + tk.env.connectDur },
     [Event.connectStart i c])

/-- Run task `i`'s next atomic block at instant `c`. -/
def runBlock (c : Nat) (i : Nat) (s : Session) (tk : Task) (tasks : List Task) :
    Session × Task × List Task × List Event :=
  match tk.phase with
  | .start =>
    let elapsed : Int := (c : Int) - s.last_request_time
    if elapsed < 200 then
      (s, { tk with phase := .afterSleep, readyAt := c + (200 - elapsed).toNat },
       tasks, [])
    else
      let (s, tk, evs) := afterPacing c i s tk
      (s, tk, tasks, evs)
  | .afterSleep =>
    let (s, tk, evs) := afterPacing c i s tk
    (s, tk, tasks, evs)
  | .connecting =>
    if tk.env.connectOk then
      let s := { s with websocket := true }
      let (s, tk) := proceedToSend c i s tk
      (s, tk, tasks, [])
    else
      (s, { tk with phase := .finished false }, tasks, [])
  | .lockGranted =>
    (s, { tk with phase := .sending c, readyAt := c + tk.env.sendDur }, tasks, [])
  | .sending sendStart =>
    if tk.env.sendOk then
      (({ s with request_id := s.request_id + 1 } : Session),
       { tk with phase := .receiving, readyAt := c + tk.env.recvDur }, tasks,
       [Event.sent i sendStart tk.rid])
    else
      let (s, tasks) := releaseLock c { s with websocket := false } tasks
      (s, { tk with phase := .finished false }, tasks, [])
  | .receiving =>
    if tk.env.recvOk then
      let (s, tasks) := releaseLock c s tasks
      (s, { tk with phase := .finished true }, tasks, [])
    else
      let (s, tasks) := releaseLock c { s with websocket := false } tasks
      (s, { tk with phase := .finished false }, tasks, [])
  | .waitLock => (s, tk, tasks, [])
  | .finished r => (s, { tk with phase := .finished r }, tasks, [])

/-- A task the event loop may resume on its own (not a lock waiter, not
finished). -/
def runnable : Phase → Bool
  | .waitLock => false
  | .finished _ => false
  | _ => true

/-- The event loop's choice: among runnable tasks, the one with the
earliest wake-up instant, ties resolved toward the earlier-scheduled
task. -/
def pickNext (tasks : List Task) : Option (Nat × Task) :=
  (tasks.enum.filter (fun p => runnable p.2.phase)).foldl
    (fun best p =>
      match best with
      | none => some p
      | some (bi, bt) =>
        if p.2.readyAt < bt.readyAt then some p else some (bi, bt))
    none

/-- One event-loop step: pick the next runnable task, advance the clock to
its wake-up instant, and run its next atomic block. -/
def schedStep (st : Sched) : Option Sched :=
  match pickNext st.tasks with
  | none => none
  | some (i, tk) =>
    let c := max st.clock tk.readyAt
    let r := runBlock c i st.session tk st.tasks
    some { clock := c, session := r.1,
           tasks := (r.2.2.1).set i r.2.1,
           events := st.events ++ r.2.2.2 }

/-- Run the event loop for at most `fuel` steps (it stops by itself once
every task is finished or blocked). -/
def runSched (fuel : Nat) (st : Sched) : Sched :=
  match fuel with
  | 0 => st
  | f + 1 =>
    match schedStep st with
    | none => st
    | some st2 => runSched f st2

/-- The `request_id` fields of the successfully transmitted envelopes, in
transmission order. -/
def sentRids (evs : List Event) : List Nat :=
  evs.filterMap (fun e => match e with | .sent _ _ r => some r | _ => none)

/-- The send-start instants of the successfully transmitted envelopes, in
transmission order. -/
def sentTimes (evs : List Event) : List Nat :=
  evs.filterMap (fun e => match e with | .sent _ t _ => some t | _ => none)

/-- Every adjacent pair of the list is strictly increasing. -/
def strictIncr : List Nat → Bool
  | a :: b :: rest => a < b && strictIncr (b :: rest)
  | _ => true

/-- Every adjacent pair of the list is separated by at least `g`. -/
def minGap (g : Nat) : List Nat → Bool
  | a :: b :: rest => a + g ≤ b && minGap g (b :: rest)
  | _ => true

/-! ## Helper lemmas -/

/-- The commit step never touches brightness or power. -/
theorem commitColor_brightness (st1 : LightState) (nm : Option ColorMode)
    (ctv : Option Rat) (hsv : Option (Rat × Rat))
    (rgbv : Option (Int × Int × Int)) :
    (commitColor st1 nm ctv hsv rgbv).brightness = st1.brightness ∧
    (commitColor st1 nm ctv hsv rgbv).isOn = st1.isOn := by
  unfold commitColor
  constructor <;> (repeat' split) <;> rfl

/-- `async_update` always commits the brightness/power pair resolved from
the `get_intensity` response (previous values when unresolved),
independently of the color-mode stages. -/
theorem async_update_intensity (st : LightState) (resps : PollResponses) :
    (async_update st resps).brightness =
      ((resolveIntensity resps.intensity).getD (st.brightness, st.isOn)).1 ∧
    (async_update st resps).isOn =
      ((resolveIntensity resps.intensity).getD (st.brightness, st.isOn)).2 := by
  unfold async_update
  dsimp only
  exact commitColor_brightness _ _ _ _ _

/-- Encoding a nonempty byte list yields at least one character. -/
theorem b64EncodeBytes_ne_nil (bs : List Nat) (hne : bs ≠ []) :
    b64EncodeBytes bs ≠ [] := by
  match bs with
  | [] => exact absurd rfl hne
  | [b1] => simp [b64EncodeBytes]
  | [b1, b2] => simp [b64EncodeBytes]
  | b1 :: b2 :: b3 :: rest => simp [b64EncodeBytes]

/-- Encoding a nonempty byte list yields a nonempty string. -/
theorem b64encode_ne_empty (bs : List Nat) (hne : bs ≠ []) :
    b64encode bs ≠ "" := by
  intro h
  exact b64EncodeBytes_ne_nil bs hne (congrArg String.data h)

/-! ## Claim theorems -/

/-- C9: for every combination of capability flags, the supported
color-mode set built by `async_setup_entry` plus `AmaranLight.__init__`
agrees with the priority rule `COLOR_TEMP > HS > RGB` keeping at most one
of the three: `cct_support` gives `{COLOR_TEMP}`; otherwise any RGB or HSI
capability gives `{HS}` (in particular an RGB-only device advertises `HS`
as its sole color mode); otherwise `{BRIGHTNESS}`. -/
theorem supported_modes_follow_priority :
    ∀ cct_support rgb_support hsi_support : Bool,
      supportedModes cct_support rgb_support hsi_support =
        specPriorityModes cct_support rgb_support hsi_support := by
  decide

/-- C4 (counterexample): reconciling the intensity payload
`{"data": 500}` does not produce brightness `128`: Python's
`int(500 * 255 / 1000)` truncates `127.5` toward zero. The power state is
`true` as claimed. -/
theorem reconcile_intensity_500_not_128 :
    (async_update
        ⟨⟨false, true, false, false, false⟩, .brightness, false, 10, none, none,
          none, 2000, 10000⟩
        ⟨[("data", Json.jint 500)], [], [], []⟩).brightness ≠ 128 ∧
    (async_update
        ⟨⟨false, true, false, false, false⟩, .brightness, false, 10, none, none,
          none, 2000, 10000⟩
        ⟨[("data", Json.jint 500)], [], [], []⟩).isOn = true := by
  decide

/-- C4 (amended): for every prior state, reconciling the intensity payload
`{"data": 500}` yields external brightness `int(500*255/1000) = 127`
(truncation toward zero, not rounding) and power state `true`. -/
theorem reconcile_intensity_500 (st : LightState) (rc rh rr : Response) :
    (async_update st ⟨[("data", Json.jint 500)], rc, rh, rr⟩).brightness = 127 ∧
    (async_update st ⟨[("data", Json.jint 500)], rc, rh, rr⟩).isOn = true := by
  have h := async_update_intensity st ⟨[("data", Json.jint 500)], rc, rh, rr⟩
  exact ⟨h.1.trans rfl, h.2.trans rfl⟩

/-- C3 (counterexample): the secret `"AAAAAAAAAAAAAAAAAAAAAA=="` decodes
to 16 raw bytes — not 32 — yet `generate_token` returns a non-empty token,
because `cryptography`'s `algorithms.AES` accepts 128-bit keys too. -/
theorem generate_token_16_byte_key_not_empty :
    (b64decode "AAAAAAAAAAAAAAAAAAAAAA==").map List.length = some 16 ∧
    generate_token "AAAAAAAAAAAAAAAAAAAAAA=="
      ⟨List.replicate 12 0, 1700000000⟩ ≠ "" := by
  decide

/-- C3 (amended): `generate_token` returns a non-empty token exactly when
the stored secret base64-decodes to a valid AES key size — 16, 24 or 32
raw bytes; a decode failure or any other length yields `""`. -/
theorem generate_token_key_size (api_key : String) (env : TokenEnv) :
    generate_token api_key env ≠ "" ↔
      ∃ key, b64decode api_key = some key ∧ validAesKeySize key.length = true := by
  unfold generate_token
  cases hb : b64decode api_key with
  | none => simp
  | some key =>
    by_cases hv : validAesKeySize key.length
    · simp only [hv, if_true]
      constructor
      · intro _
        exact ⟨key, rfl, hv⟩
      · intro _
        exact b64encode_ne_empty _ (by simp [aesGcmTag])
    · simp only [hv, if_false]
      constructor
      · intro hcon
        exact absurd rfl hcon
      · rintro ⟨k2, hk2, hv2⟩
        cases hk2
        exact absurd hv2 hv

/-- C5: for every prior state and every turn-on command carrying both a
color-temperature attribute `k` and a hue/saturation attribute (brightness
and RGB attributes arbitrary), the sent requests include `set_cct` with
`k` clamped to `[cct_min, cct_max]` and include no `set_hsi` and no
`set_rgb`; the resulting color mode is color-temperature, the clamped
value is stored, and the stored hue/saturation and RGB values are cleared
immediately. -/
theorem turn_on_cct_wins (st : LightState) (b0 : Option Int) (k : Int)
    (hsv : Rat × Rat) (rgb0 : Option (Int × Int × Int)) :
    (Request.mk "set_cct" [("cct", max st.cctMin (min st.cctMax k))]) ∈
      (async_turn_on st ⟨b0, some k, some hsv, rgb0⟩).2 ∧
    ((async_turn_on st ⟨b0, some k, some hsv, rgb0⟩).2.filter
      (fun q => q.action == "set_hsi" || q.action == "set_rgb")) = [] ∧
    (async_turn_on st ⟨b0, some k, some hsv, rgb0⟩).1.colorMode = .colorTemp ∧
    (async_turn_on st ⟨b0, some k, some hsv, rgb0⟩).1.colorTemp =
      some ((max st.cctMin (min st.cctMax k) : Int) : Rat) ∧
    (async_turn_on st ⟨b0, some k, some hsv, rgb0⟩).1.hsColor = none ∧
    (async_turn_on st ⟨b0, some k, some hsv, rgb0⟩).1.rgbColor = none := by
  cases b0 <;> cases rgb0 <;>
    refine ⟨?_, rfl, rfl, rfl, rfl, rfl⟩ <;>
    simp [async_turn_on, TurnOnArgs.isEmpty]

/-- C6: on a device whose capability flags declare color-temperature
support, reconciling a `get_cct` response `{"data": {"cct": 5600}}` sets
the color mode to color-temperature with value `5600` and nulls the stored
hue/saturation and RGB values, whatever the previous mode and stored
values were. -/
theorem update_cct_5600_clears_others (r h : Bool) (cm : ColorMode)
    (o : Bool) (br : Int) (ct0 : Option Rat) (hs0 : Option (Rat × Rat))
    (rgb0 : Option (Int × Int × Int)) (lo hi : Int) (ri rh2 rr : Response) :
    (async_update ⟨supportedModes true r h, cm, o, br, ct0, hs0, rgb0, lo, hi⟩
        ⟨ri, [("data", Json.jobj [("cct", Json.jint 5600)])], rh2, rr⟩).colorMode
        = .colorTemp ∧
    (async_update ⟨supportedModes true r h, cm, o, br, ct0, hs0, rgb0, lo, hi⟩
        ⟨ri, [("data", Json.jobj [("cct", Json.jint 5600)])], rh2, rr⟩).colorTemp
        = some 5600 ∧
    (async_update ⟨supportedModes true r h, cm, o, br, ct0, hs0, rgb0, lo, hi⟩
        ⟨ri, [("data", Json.jobj [("cct", Json.jint 5600)])], rh2, rr⟩).hsColor
        = none ∧
    (async_update ⟨supportedModes true r h, cm, o, br, ct0, hs0, rgb0, lo, hi⟩
        ⟨ri, [("data", Json.jobj [("cct", Json.jint 5600)])], rh2, rr⟩).rgbColor
        = none := by
  cases r <;> cases h <;> cases cm <;> exact ⟨rfl, rfl, rfl, rfl⟩

/-- C7: when the current color mode is RGB and a poll's color queries all
come back with the empty-response sentinel `{}` (the transport failure
result, so no mode resolves), the color mode and the three stored color
values are all unchanged after the poll, whatever the supported-mode set
is. -/
theorem update_rgb_unresolved_retains (ms : ModeSet) (o : Bool) (br : Int)
    (ct0 : Option Rat) (hs0 : Option (Rat × Rat))
    (rgb0 : Option (Int × Int × Int)) (lo hi : Int) (ri : Response) :
    (async_update ⟨ms, .rgb, o, br, ct0, hs0, rgb0, lo, hi⟩
        ⟨ri, [], [], []⟩).colorMode = .rgb ∧
    (async_update ⟨ms, .rgb, o, br, ct0, hs0, rgb0, lo, hi⟩
        ⟨ri, [], [], []⟩).colorTemp = ct0 ∧
    (async_update ⟨ms, .rgb, o, br, ct0, hs0, rgb0, lo, hi⟩
        ⟨ri, [], [], []⟩).hsColor = hs0 ∧
    (async_update ⟨ms, .rgb, o, br, ct0, hs0, rgb0, lo, hi⟩
        ⟨ri, [], [], []⟩).rgbColor = rgb0 := by
  obtain ⟨mo, mb, mc, mh, mr⟩ := ms
  cases mc <;> cases mh <;> cases mr <;> exact ⟨rfl, rfl, rfl, rfl⟩

/-- C10: when the device's current mode is hue/saturation (a supported
mode, so the HSI query runs) and the `get_hsi` response's `data` field is
a bare numeric scalar `v`, the reconciler resolves the pair as `(v, 100)`
— substituting the default saturation `100` — and the color mode stays
hue/saturation, with the other color values cleared. -/
theorem update_hsi_scalar_default_sat (v : Int) (mo mb mc mr : Bool)
    (o : Bool) (br : Int) (ct0 : Option Rat) (hs0 : Option (Rat × Rat))
    (rgb0 : Option (Int × Int × Int)) (lo hi : Int) (ri rc rr : Response) :
    resolveHsi [("data", Json.jint v)] = some ((v : Rat), 100) ∧
    (async_update ⟨⟨mo, mb, mc, true, mr⟩, .hs, o, br, ct0, hs0, rgb0, lo, hi⟩
        ⟨ri, rc, [("data", Json.jint v)], rr⟩).colorMode = .hs ∧
    (async_update ⟨⟨mo, mb, mc, true, mr⟩, .hs, o, br, ct0, hs0, rgb0, lo, hi⟩
        ⟨ri, rc, [("data", Json.jint v)], rr⟩).hsColor = some ((v : Rat), 100) ∧
    (async_update ⟨⟨mo, mb, mc, true, mr⟩, .hs, o, br, ct0, hs0, rgb0, lo, hi⟩
        ⟨ri, rc, [("data", Json.jint v)], rr⟩).colorTemp = none ∧
    (async_update ⟨⟨mo, mb, mc, true, mr⟩, .hs, o, br, ct0, hs0, rgb0, lo, hi⟩
        ⟨ri, rc, [("data", Json.jint v)], rr⟩).rgbColor = none := by
  cases mc <;> cases mr <;> exact ⟨rfl, rfl, rfl, rfl, rfl⟩

/-- C1 scenario: a connected session (`request_id = 1`,
`_last_request_time = 0`) with two concurrent `send_request` callers, both
entering at t = 1000 ms. Caller 0's `websocket.send` takes 300 ms and its
`recv` 50 ms; caller 1's send takes 20 ms and its recv 10 ms; everything
succeeds. -/
def dupRidStart : Sched :=
  { clock := 0,
    session := ⟨true, 1, 0, none, []⟩,
    tasks := [⟨⟨true, 0, true, true, 300, true, 50⟩, 1000, .start, 0⟩,
              ⟨⟨true, 0, true, true, 20, true, 10⟩, 1000, .start, 0⟩],
    events := [] }

/-- C1 (code bug): in the `dupRidStart` interleaving, caller 1 wakes from
its pacing sleep at t = 1200 and builds its envelope — reading
`self.request_id` at line 329, before acquiring `_ws_lock` — while caller
0 is still inside `await websocket.send` and has not yet executed
`self.request_id += 1` (line 343). Both successfully transmitted
envelopes carry `request_id = 1`, so the envelope ids are not strictly
increasing, refuting the claimed atomicity of envelope id and post-send
increment. -/
theorem send_request_duplicate_request_ids :
    sentRids (runSched 20 dupRidStart).events = [1, 1] ∧
    strictIncr (sentRids (runSched 20 dupRidStart).events) = false := by
  decide

/-- C2 scenario: a connected session whose previous send was recorded at
t = 900 ms; caller 0 enters at t = 1000 and caller 1 at t = 1001. Both
compute their pacing delay from the same stale `_last_request_time = 900`
(the sleep happens before the new last-send time is recorded), so both
wake at t = 1100. Sends take 50 ms / 20 ms, recvs 10 ms. -/
def pacingStart : Sched :=
  { clock := 0,
    session := ⟨true, 1, 900, none, []⟩,
    tasks := [⟨⟨true, 0, true, true, 50, true, 10⟩, 1000, .start, 0⟩,
              ⟨⟨true, 0, true, true, 20, true, 10⟩, 1001, .start, 0⟩],
    events := [] }

/-- C2 (code bug): in the `pacingStart` interleaving, caller 0 starts its
send at t = 1100 and caller 1 — which passed the pacing check against the
stale last-send time and then only waited for `_ws_lock` — starts its send
at t = 1160, only 60 ms later: consecutive send-starts are not separated
by the 200 ms minimum interval, refuting the claimed atomicity of the
pacing check and the last-send-time recording. -/
theorem send_request_pacing_violation :
    sentTimes (runSched 20 pacingStart).events = [1100, 1160] ∧
    minGap 200 (sentTimes (runSched 20 pacingStart).events) = false := by
  decide

/-- A single `send_request` caller entering a connected session at
t = 1000 ms whose token generation succeeds and whose transport faults: at
`websocket.send` when `f` is true, else at `websocket.recv`. -/
def faultStart (f : Bool) (cd sd rd : Nat) (rid : Nat) : Sched :=
  { clock := 0,
    session := ⟨true, rid, 0, none, []⟩,
    tasks := [⟨⟨true, cd, true, !f, sd, false, rd⟩, 1000, .start, 0⟩],
    events := [] }

/-- C8: whichever of `websocket.send` (`f = true`) and `websocket.recv`
(`f = false`) raises the transport fault, the `send_request` call finishes
with the empty-response sentinel `{}` and the session's socket handle is
cleared; and the next `send_request` call on the resulting session
(entering at t = 2000 ms) begins with a fresh `connect()` attempt before
any send — whether that connect then succeeds (`co2 = true`) or fails. -/
theorem send_request_fault_recovery (f : Bool) (co2 : Bool) :
    ((runSched 10 (faultStart f 5 7 3 1)).tasks.map Task.phase =
      [.finished false]) ∧
    (runSched 10 (faultStart f 5 7 3 1)).session.websocket = false ∧
    ((runSched 10
        { clock := 0,
          session := (runSched 10 (faultStart f 5 7 3 1)).session,
          tasks := [⟨⟨co2, 5, true, true, 7, true, 3⟩, 2000, .start, 0⟩],
          events := [] }).events.head? = some (.connectStart 0 2000)) := by
  cases f <;> cases co2 <;> decide

end Amaran
